import Mathlib

/-!
Shallow embedding of the matchstick test-harness core (src/wasm_instance.rs):
the mock store, the call-stub registry, the test ledger, the trap classifier
inside `invoke_handler`, the host-function wrappers of
`from_valid_module_with_ctx`, and the timeout watchdog.

Modelling conventions: Rust `IndexMap`/`HashMap` values are modelled as
association lists with first-match lookup and in-place update (keys are unique
in every reachable state); a Rust panic (`panic!`/`unwrap` on `None`) is
modelled as the result `none`; values stored in entities (the external
`graph::prelude::Value` type) are a type parameter `V` together with its
canonical string form; external-call argument tokens (`ethabi::Token`) are a
type parameter `Tok` together with their display form.
-/

set_option synthInstance.maxSize 2000

namespace Matchstick

/-- Log levels (`enum Level` in the source). -/
inductive Level where
  | ERROR
  | WARNING
  | INFO
  | DEBUG
  | SUCCESS
  | UNKNOWN
deriving DecidableEq, Repr

/-- Source `level_from_u32`: numeric log level to `Level`. -/
def level_from_u32 (n : Nat) : Level :=
  match n with
  | 1 => .ERROR
  | 2 => .WARNING
  | 3 => .INFO
  | 4 => .DEBUG
  | 5 => .SUCCESS
  | _ => .UNKNOWN

/-- Association-list model of `IndexMap::get` (first match; keys unique in reachable states). -/
def imGet? {V : Type} : List (String × V) → String → Option V
  | [], _ => none
  | p :: m, k => if p.1 = k then some p.2 else imGet? m k

/-- Association-list model of `IndexMap::contains_key`. -/
def imContains {V : Type} : List (String × V) → String → Bool
  | [], _ => false
  | p :: m, k => if p.1 = k then true else imContains m k

/-- Association-list model of `IndexMap::insert`: replace the value in place if
the key is present, otherwise append at the end (insertion order). -/
def imInsert {V : Type} : List (String × V) → String → V → List (String × V)
  | [], k, v => [(k, v)]
  | p :: m, k, v => if p.1 = k then (k, v) :: m else p :: imInsert m k v

/-- Association-list model of `IndexMap::remove` (which is `swap_remove`):
the removed slot is filled with the last entry. -/
def imSwapRemove {V : Type} (m : List (String × V)) (k : String) : List (String × V) :=
  match m.findIdx? (fun p => p.1 == k) with
  | none => m
  | some i =>
    match m.getLast? with
    | none => m
    | some lastP => (m.set i lastP).dropLast

/-- The test ledger: the global `TEST_RESULTS` and `LOGS` insertion-ordered maps. -/
structure Ledger where
  testResults : List (String × Bool)
  logs : List (String × Level)
deriving DecidableEq

/-- Source `fail_test`: flip the most recently registered test (the last key of
`TEST_RESULTS`) to failed and insert an ERROR log entry. `keys().last().unwrap()`
panics when no test was ever registered, modelled as `none`. -/
def fail_test (msg : String) (ld : Ledger) : Option Ledger :=
  match ld.testResults.getLast? with
  | none => none
  | some lastEntry =>
    some { testResults := imInsert ld.testResults lastEntry.1 false
           logs := imInsert ld.logs msg Level.ERROR }

/-- Source `register_test`: panic (modelled as `none`) on a duplicate name,
otherwise insert a passing record and an INFO log entry. -/
def register_test (name : String) (ld : Ledger) : Option Ledger :=
  if imContains ld.testResults name then none
  else
    some { testResults := imInsert ld.testResults name true
           logs := imInsert ld.logs name Level.INFO }

/-- The mock store type: `IndexMap<String, IndexMap<String, HashMap<String, Value>>>`. -/
abbrev StoreV (V : Type) : Type := List (String × List (String × List (String × V)))

/-- Source `mock_store_set`: clone-or-create the inner map, upsert the entity,
reinsert the inner map. -/
def mock_store_set {V : Type} (store : StoreV V) (entity_type id : String)
    (data : List (String × V)) : StoreV V :=
  let inner_map : List (String × List (String × V)) :=
    match imGet? store entity_type with
    | some m => m
    | none => []
  imInsert store entity_type (imInsert inner_map id data)

/-- Source `mock_store_get`: the entity when both the type and the id are
present, the null pointer (modelled as `none`) otherwise. -/
def mock_store_get {V : Type} (store : StoreV V) (entity_type id : String) :
    Option (List (String × V)) :=
  match imGet? store entity_type with
  | some entities => imGet? entities id
  | none => none

/-- Failure message of `mock_store_remove` on a missing record. -/
def removeMissingMsg (entity_type id : String) : String :=
  "(store.remove) Entity with type '" ++ entity_type ++ "' and id '" ++ id ++
    "' does not exist. Problem originated from store.remove()"

/-- Source `mock_store_remove`: when the record exists, remove it from a clone
of the inner map and reinsert the clone; otherwise record a test failure naming
the type and the id (which panics, `none`, when no test is registered). -/
def mock_store_remove {V : Type} (store : StoreV V) (ld : Ledger)
    (entity_type id : String) : Option (StoreV V × Ledger) :=
  if (imContains store entity_type &&
      (match imGet? store entity_type with
       | some inner => imContains inner id
       | none => false)) then
    let inner :=
      match imGet? store entity_type with
      | some m => m
      | none => []
    some (imInsert store entity_type (imSwapRemove inner id), ld)
  else
    (fail_test (removeMissingMsg entity_type id) ld).map (fun ld2 => (store, ld2))

/-- Failure message of `assert_field_equals` when the entity type is missing. -/
def msgNoType (entity_type : String) : String :=
  "(assert.fieldEquals) No entities with type '" ++ entity_type ++ "' found."

/-- Failure message of `assert_field_equals` when the id is missing. -/
def msgNoId (entity_type id : String) : String :=
  "(assert.fieldEquals) No entity with type '" ++ entity_type ++ "' and id '" ++
    id ++ "' found."

/-- Failure message of `assert_field_equals` when the field is missing. -/
def msgNoField (field_name entity_type id : String) : String :=
  "(assert.fieldEquals) No field named '" ++ field_name ++ "' on entity with type '" ++
    entity_type ++ "' and id '" ++ id ++ "' found."

/-- Failure message of `assert_field_equals` on a value mismatch. -/
def msgMismatch (field_name expected_val actual_val : String) : String :=
  "(assert.fieldEquals) Expected field '" ++ field_name ++ "' to equal '" ++
    expected_val ++ "', but was '" ++ actual_val ++ "' instead."

/-- Source `assert_field_equals`: check entity type, then id, then field, then
the canonical string form of the value against `expected_val`; each failing
check records a test failure with its own message and returns `Ok`. `toStr` is
the canonical string form (`Display`) of the external `Value` type. -/
def assert_field_equals {V : Type} (toStr : V → String) (store : StoreV V)
    (ld : Ledger) (entity_type id field_name expected_val : String) : Option Ledger :=
  if imContains store entity_type = false then
    fail_test (msgNoType entity_type) ld
  else
    match imGet? store entity_type with
    | none => none
    | some entities =>
      if imContains entities id = false then
        fail_test (msgNoId entity_type id) ld
      else
        match imGet? entities id with
        | none => none
        | some entity =>
          if imContains entity field_name = false then
            fail_test (msgNoField field_name entity_type id) ld
          else
            match imGet? entity field_name with
            | none => none
            | some val =>
              if toStr val != expected_val then
                fail_test (msgMismatch field_name expected_val (toStr val)) ld
              else
                some ld

/-- Source `create_unique_fn_string`: the call-stub fingerprint, the address
string concatenated with the function name concatenated with the display form
of every argument token in order, with no separators. `tokToStr` is the display
form of the external `ethabi::Token` type. -/
def create_unique_fn_string {Tok : Type} (tokToStr : Tok → String)
    (contract_address fn_name : String) (fn_args : List Tok) : String :=
  fn_args.foldl (fun acc element => acc ++ tokToStr element) (contract_address ++ fn_name)

/-- Source `mock_function`: register a stub under its fingerprint in the global
`FUNCTIONS_MAP` (overwrite semantics of `IndexMap::insert`). -/
def mock_function {Tok : Type} (tokToStr : Tok → String) (fns : List (String × Tok))
    (contract_address fn_name : String) (fn_args : List Tok) (return_value : Tok) :
    List (String × Tok) :=
  imInsert fns (create_unique_fn_string tokToStr contract_address fn_name fn_args) return_value

/-- Source `ethereum_call`: resolve a call by its fingerprint; a missing
fingerprint panics ("key not found in map"), modelled as `none`. -/
def ethereum_call {Tok : Type} (tokToStr : Tok → String) (fns : List (String × Tok))
    (contract_address function_name : String) (function_args : List Tok) : Option Tok :=
  let unique_fn_string :=
    create_unique_fn_string tokToStr contract_address function_name function_args
  if imContains fns unique_fn_string then imGet? fns unique_fn_string else none

/-- Source constant `TRAP_TIMEOUT`: the substring marking a watchdog interrupt. -/
def TRAP_TIMEOUT : String := "trap: interrupt"

/-- Infix test on character lists. -/
def charsInfixOf (pat : List Char) : List Char → Bool
  | [] => pat.isEmpty
  | c :: rest => pat.isPrefixOf (c :: rest) || charsInfixOf pat rest

/-- Substring test (Rust `str::contains`). -/
def strContainsSub (s pat : String) : Bool := charsInfixOf pat.data s.data

/-- Newline-to-tab normalization applied to the deterministic error message,
Rust `format!("{:#}", e).replace("\n", "\t")` on the trap display string. -/
def tabbedMessage (s : String) : String :=
  String.mk (s.data.map (fun c => if c = Char.ofNat 10 then Char.ofNat 9 else c))

/-- Wasmtime trap codes matched by the classifier in `invoke_handler`. -/
inductive TrapCode where
  | MemoryOutOfBounds
  | HeapMisaligned
  | TableOutOfBounds
  | IndirectCallToNull
  | BadSignature
  | IntegerOverflow
  | IntegerDivisionByZero
  | BadConversionToInteger
  | UnreachableCodeReached
  | StackOverflow
  | Interrupt
deriving DecidableEq, Repr

/-- The deterministic subset of trap codes, the nine-arm `match` in `invoke_handler`. -/
def isDeterministicTrapCode : Option TrapCode → Bool
  | some .MemoryOutOfBounds => true
  | some .HeapMisaligned => true
  | some .TableOutOfBounds => true
  | some .IndirectCallToNull => true
  | some .BadSignature => true
  | some .IntegerOverflow => true
  | some .IntegerDivisionByZero => true
  | some .BadConversionToInteger => true
  | some .UnreachableCodeReached => true
  | _ => false

/-- A low-level execution failure: its display string and its trap code. -/
structure TrapInfo where
  msg : String
  code : Option TrapCode
deriving DecidableEq

/-- The structured error record synthesized on a deterministic failure
(`SubgraphError` of the graph library, fields as constructed in `invoke_handler`;
the block pointer is modelled by its display string). -/
structure SubgraphError where
  subgraph_id : String
  message : String
  block_ptr : Option String
  handler : Option String
  deterministic : Bool
deriving DecidableEq

/-- Engine block state with handler bookkeeping. Modelled from the spec: the
graph library's `BlockState` is not under src/; per the spec, entering a
handler snapshots the in-flight engine-state changes, a normal exit keeps
them, and the discarding exit restores the snapshot and records the structured
error. The changes themselves are abstracted as an opaque list of operations. -/
structure BlockState where
  entityOps : List String
  snapshot : Option (List String)
  deterministicErrors : List SubgraphError
deriving DecidableEq

/-- Modelled from the spec: `BlockState::enter_handler` snapshots the current changes. -/
def enter_handler (s : BlockState) : BlockState :=
  { s with snapshot := some s.entityOps }

/-- Modelled from the spec: `BlockState::exit_handler` commits and drops the snapshot. -/
def exit_handler (s : BlockState) : BlockState :=
  { s with snapshot := none }

/-- Modelled from the spec: `BlockState::exit_handler_and_discard_changes_due_to_error`
restores the snapshot taken at handler entry and records the structured error. -/
def exit_handler_and_discard_changes_due_to_error (s : BlockState) (e : SubgraphError) :
    BlockState :=
  { entityOps := s.snapshot.getD s.entityOps
    snapshot := none
    deterministicErrors := s.deterministicErrors ++ [e] }

/-- Engine-state mutations performed by the host functions during the wasm call,
abstracted as appended operations. -/
def applyOps (s : BlockState) (ops : List String) : BlockState :=
  { s with entityOps := s.entityOps ++ ops }

/-- The execution context of one instance as read by `invoke_handler`. -/
structure InstanceCtx where
  state : BlockState
  timeout : Option Nat
  subgraph_id : String
  block_ptr : String
deriving DecidableEq

/-- The observable behaviour of one wasm `func.call`: the global mock store it
leaves behind, the engine-state operations it performed, the values of the two
sticky flags after the call, and its result (`none` = returned Ok). -/
structure WasmCall (V : Type) where
  storeAfter : StoreV V
  newOps : List String
  possible_reorg : Bool
  deterministic_host_trap : Bool
  result : Option TrapInfo

/-- The `MappingError` taxonomy returned by `invoke_handler` on escalation. -/
inductive MappingError where
  | PossibleReorg (msg : String)
  | Unknown (msg : String)
deriving DecidableEq

/-- Result of `invoke_handler`, Rust `Result<BlockState, MappingError>`. -/
inductive HandlerRes where
  | ok (state : BlockState)
  | err (e : MappingError)
deriving DecidableEq

/-- The structured error record synthesized by `invoke_handler` for a
deterministic failure. -/
def mkSubgraphError (ctx : InstanceCtx) (handler : String) (trap : TrapInfo) :
    SubgraphError :=
  { subgraph_id := ctx.subgraph_id
    message := tabbedMessage trap.msg
    block_ptr := some ctx.block_ptr
    handler := some handler
    deterministic := true }

/-- The timeout message of `invoke_handler`; `ctx.timeout` was already unwrapped. -/
def timeoutMsg (handler : String) (secs : Nat) : String :=
  "Handler '" ++ handler ++ "' hit the timeout of '" ++ toString secs ++ "' seconds"

/-- Source `invoke_handler`: look up the handler, enter handler bookkeeping,
run the call, then classify a failure in priority order (possible-reorg flag,
timeout message, deterministic trap code, sticky deterministic-host-trap flag,
otherwise unknown). A deterministic failure exits discarding the engine-state
changes and recording the structured error; every path leaves the global mock
store as the call left it. `funcFound` models `instance.get_func(handler)`;
the absent-timeout unwrap in the timeout arm panics, modelled as `none`. -/
def invoke_handler {V : Type} (handler : String) (funcFound : Bool)
    (ctx : InstanceCtx) (store0 : StoreV V) (call : WasmCall V) :
    Option (HandlerRes × StoreV V) :=
  if funcFound = false then
    some (.err (.Unknown ("function " ++ handler ++ " not found")), store0)
  else
    let state1 := applyOps (enter_handler ctx.state) call.newOps
    match call.result with
    | none => some (.ok (exit_handler state1), call.storeAfter)
    | some trap =>
      if call.possible_reorg then
        some (.err (.PossibleReorg trap.msg), call.storeAfter)
      else if strContainsSub trap.msg TRAP_TIMEOUT then
        match ctx.timeout with
        | none => none
        | some t => some (.err (.Unknown (timeoutMsg handler t)), call.storeAfter)
      else if isDeterministicTrapCode trap.code then
        some (.ok (exit_handler_and_discard_changes_due_to_error state1
                     (mkSubgraphError ctx handler trap)), call.storeAfter)
      else if call.deterministic_host_trap then
        some (.ok (exit_handler_and_discard_changes_due_to_error state1
                     (mkSubgraphError ctx handler trap)), call.storeAfter)
      else
        some (.err (.Unknown trap.msg), call.storeAfter)

/-- The two sticky classification flags on the shared `WasmInstanceContext`. -/
structure CtxFlags where
  deterministic_host_trap : Bool
  possible_reorg : Bool
deriving DecidableEq

/-- The error taxonomy of the host-export layer (`HostExportError`). -/
inductive HostExportErr where
  | deterministic (msg : String)
  | possibleReorg (msg : String)
  | unknown (msg : String)
deriving DecidableEq

/-- The determinism taxonomy of `graph_runtime_wasm::error::DeterminismLevel`. -/
inductive DeterminismLevel where
  | Deterministic
  | PossibleReorg
  | Unimplemented
  | NonDeterministic
deriving DecidableEq

/-- Source `impl IntoTrap for HostExportError`: `determinism_level` is
`unreachable!()` in this repository, i.e. a panic, modelled as `none`. -/
def hostExportErr_determinism_level : HostExportErr → Option DeterminismLevel :=
  fun _ => none

/-- Flag update of the `link!` wrapper for a classified determinism level. -/
def applyDeterminismLevel (flags : CtxFlags) : DeterminismLevel → CtxFlags
  | .Deterministic => { flags with deterministic_host_trap := true }
  | .PossibleReorg => { flags with possible_reorg := true }
  | .Unimplemented => flags
  | .NonDeterministic => flags

/-- Metric name mangling of the chain-specific wrapper,
Rust `host_fn.name.replace('.', "_")`. -/
def metricsName (s : String) : String :=
  String.mk (s.data.map (fun c => if c = '.' then '_' else c))

/-- Source `link!` macro wrapper around every built-in host function: when the
shared context is not yet materialized it is lazily constructed from the
pending mapping context (`ctx.borrow_mut().take().unwrap()`, panic when
absent, and `WasmInstanceContext::from_caller`, abstracted as `fromCaller`);
then the implementation result is returned, an error being classified through
`IntoTrap::determinism_level` into the sticky flags before trapping. The
pending context type `PC` and the constructor are parameters because both
belong to the external runtime crate. -/
def link_host_call {PC α : Type} (fromCaller : PC → CtxFlags)
    (shared : Option CtxFlags) (pending : Option PC)
    (result : Except HostExportErr α) :
    Option (CtxFlags × Except String α) :=
  let inst? : Option CtxFlags :=
    match shared with
    | some i => some i
    | none => pending.map fromCaller
  match inst? with
  | none => none
  | some inst =>
    match result with
    | .ok a => some (inst, .ok a)
    | .error e =>
      match hostExportErr_determinism_level e with
      | none => none
      | some lvl => some (applyDeterminismLevel inst lvl, .error "trap")

/-- Source wrapper around every chain-specific host function (the `host_fns`
loop of `from_valid_module_with_ctx`): when the shared context is not yet
materialized the call fails with an error naming the function instead of
constructing the context; otherwise the adapter is run, a `Deterministic` or
`PossibleReorg` error sets the corresponding sticky flag, and on success the
execution timing is observed under the mangled function name. The returned
triple is the shared context afterwards, the result handed to wasm, and the
list of metric names under which a timing observation was recorded. -/
def host_fn_wrapper {α : Type} (fnName : String) (shared : Option CtxFlags)
    (funcResult : Except HostExportErr α) :
    Option CtxFlags × Except String α × List String :=
  match shared with
  | none => (none, .error (fnName ++ " is not allowed in global variables"), [])
  | some inst =>
    let name_for_metrics := metricsName fnName
    match funcResult with
    | .ok a => (some inst, .ok a, [name_for_metrics])
    | .error (.deterministic m) =>
      (some { inst with deterministic_host_trap := true }, .error m, [])
    | .error (.possibleReorg m) =>
      (some { inst with possible_reorg := true }, .error m, [])
    | .error (.unknown m) => (some inst, .error m, [])

/-- Watchdog constant `minimum_wait`, one second, in milliseconds. -/
def minimum_wait_millis : Nat := 1000

/-- Rust `Duration::checked_sub`. -/
def checked_sub (a b : Nat) : Option Nat :=
  if b ≤ a then some (a - b) else none

/-- One decision of the watchdog loop. -/
inductive WatchdogAction where
  | interrupt
  | sleep (millis : Nat)
deriving DecidableEq

/-- Source watchdog loop body in `from_valid_module_with_ctx` (times in
milliseconds): compare the stopwatch elapsed time against the configured
timeout; interrupt when the budget is exhausted or less than the one-second
minimum wait remains, otherwise sleep for the entire remaining budget. -/
def watchdog_step (timeout_millis elapsed_millis : Nat) : WatchdogAction :=
  match checked_sub timeout_millis elapsed_millis with
  | none => .interrupt
  | some time =>
    if time < minimum_wait_millis then .interrupt else .sleep time

/-- The number of interrupt signals the watchdog sends over a run whose
successive polls observe the given elapsed times (the loop breaks at the
first interrupt). -/
def watchdog_interrupt_count (timeout_millis : Nat) : List Nat → Nat
  | [] => 0
  | e :: rest =>
    match watchdog_step timeout_millis e with
    | .interrupt => 1
    | .sleep _ => watchdog_interrupt_count timeout_millis rest

/-- Inserting an absent key appends at the end (insertion order). -/
theorem imInsert_append_of_not_contains {V : Type} (m : List (String × V)) (k : String)
    (v : V) (h : imContains m k = false) : imInsert m k v = m ++ [(k, v)] := by
  induction m with
  | nil => rfl
  | cons p m ih =>
    simp only [imContains] at h
    by_cases hp : p.1 = k
    · simp [hp] at h
    · simp only [if_neg hp] at h
      simp [imInsert, if_neg hp, ih h]

/-- Lookup after insert of the same key returns the inserted value. -/
theorem imGet?_imInsert_self {V : Type} (m : List (String × V)) (k : String) (v : V) :
    imGet? (imInsert m k v) k = some v := by
  induction m with
  | nil => simp [imInsert, imGet?]
  | cons p m ih =>
    by_cases hp : p.1 = k
    · simp [imInsert, hp, imGet?]
    · simp [imInsert, hp, imGet?, ih]

/-- Membership after insert of the same key. -/
theorem imContains_imInsert_self {V : Type} (m : List (String × V)) (k : String) (v : V) :
    imContains (imInsert m k v) k = true := by
  induction m with
  | nil => simp [imInsert, imContains]
  | cons p m ih =>
    by_cases hp : p.1 = k
    · simp [imInsert, hp, imContains]
    · simp [imInsert, hp, imContains, ih]

/-- A contained key has a value. -/
theorem exists_of_imContains {V : Type} {m : List (String × V)} {k : String}
    (h : imContains m k = true) : ∃ v, imGet? m k = some v := by
  induction m with
  | nil => simp [imContains] at h
  | cons p m ih =>
    by_cases hp : p.1 = k
    · exact ⟨p.2, by simp [imGet?, hp]⟩
    · simp only [imContains, if_neg hp] at h
      obtain ⟨v, hv⟩ := ih h
      exact ⟨v, by simp [imGet?, hp, hv]⟩

/-- C9: calling `fail_test` (the mark-current-failed operation) when no test has
ever been registered panics the harness — it unwraps the last key of the empty
test-results map, modelled as `none` — rather than returning an error or
recording anything. -/
theorem fail_test_empty_ledger_panics (msg : String) (ld : Ledger)
    (h : ld.testResults = []) : fail_test msg ld = none := by
  simp [fail_test, h]

theorem fail_test_empty_ledger_panics_witness :
    fail_test "boom" { testResults := [], logs := [] } = none :=
  fail_test_empty_ledger_panics "boom" _ rfl

/-- C7: registering an already-present test name is a fatal error (a panic,
modelled as `none`); registering a fresh name appends a record marked passing
and inserts an informational log entry for that name. -/
theorem register_test_spec (name : String) (ld : Ledger) :
    (imContains ld.testResults name = true → register_test name ld = none) ∧
    (imContains ld.testResults name = false →
      register_test name ld =
        some { testResults := ld.testResults ++ [(name, true)]
               logs := imInsert ld.logs name Level.INFO }) := by
  constructor
  · intro h; simp [register_test, h]
  · intro h
    simp [register_test, h, imInsert_append_of_not_contains _ _ _ h]

theorem register_test_spec_witness :
    register_test "A" { testResults := [("A", true)], logs := [("A", Level.INFO)] } = none ∧
    register_test "A" { testResults := [("B", true)], logs := [("B", Level.INFO)] } =
      some { testResults := [("B", true), ("A", true)]
             logs := [("B", Level.INFO), ("A", Level.INFO)] } := by
  constructor
  · exact (register_test_spec "A" _).1 (by decide)
  · rw [(register_test_spec "A" _).2 (by decide)]; decide

/-- C6 counterexample: removing a nonexistent record when no test has been
registered crashes the harness — the failure path panics inside `fail_test`
(modelled as `none`) instead of recording a test failure. -/
theorem mock_store_remove_crash_cex :
    mock_store_remove ([] : StoreV String) { testResults := [], logs := [] }
      "Token" "1" = none := by decide

/-- C6 amended: for every `(entity_type, id)` pair not present in the mock
store, provided at least one test is registered, `mock_store_remove` leaves the
store completely unchanged and records a test failure whose message names both
the entity type and the id; when no test is registered, the failure path panics
instead. -/
theorem mock_store_remove_missing_spec {V : Type} (store : StoreV V) (ld : Ledger)
    (entity_type id : String)
    (hmiss : (imContains store entity_type &&
      (match imGet? store entity_type with
       | some inner => imContains inner id
       | none => false)) = false)
    (lastEntry : String × Bool) (hlast : ld.testResults.getLast? = some lastEntry) :
    mock_store_remove store ld entity_type id =
      some (store,
        { testResults := imInsert ld.testResults lastEntry.1 false
          logs := imInsert ld.logs (removeMissingMsg entity_type id) Level.ERROR }) ∧
    (∃ p q, removeMissingMsg entity_type id = p ++ entity_type ++ q) ∧
    (∃ p q, removeMissingMsg entity_type id = p ++ id ++ q) := by
  refine ⟨?_, ?_, ?_⟩
  · simp [mock_store_remove, hmiss, fail_test, hlast]
  · exact ⟨"(store.remove) Entity with type '",
      "' and id '" ++ id ++ "' does not exist. Problem originated from store.remove()",
      by simp [removeMissingMsg, String.append_assoc]⟩
  · exact ⟨"(store.remove) Entity with type '" ++ entity_type ++ "' and id '",
      "' does not exist. Problem originated from store.remove()",
      by simp [removeMissingMsg, String.append_assoc]⟩

theorem mock_store_remove_missing_spec_witness :
    mock_store_remove ([("Token", [("2", [("f", "x")])])] : StoreV String)
      { testResults := [("t1", true)], logs := [("t1", Level.INFO)] } "Token" "1" =
      some ([("Token", [("2", [("f", "x")])])],
        { testResults := [("t1", false)]
          logs := [("t1", Level.INFO), (removeMissingMsg "Token" "1", Level.ERROR)] }) := by
  have h := (mock_store_remove_missing_spec
    ([("Token", [("2", [("f", "x")])])] : StoreV String)
    { testResults := [("t1", true)], logs := [("t1", Level.INFO)] }
    "Token" "1" (by decide) ("t1", true) (by decide)).1
  rw [h]; decide

/-- C10: the call-stub fingerprint `create_unique_fn_string` is not injective:
it concatenates the address, the function name and the argument tokens with no
separators, so two distinct `(contract_address, function_name, args)` triples
collide, and a stub registered under one triple is returned when resolving the
other. -/
theorem create_unique_fn_string_not_injective :
    create_unique_fn_string (fun s : String => s) "0xa" "bc" [] =
      create_unique_fn_string (fun s : String => s) "0xab" "c" [] ∧
    (("0xa", "bc", ([] : List String)) ≠ ("0xab", "c", ([] : List String))) ∧
    ethereum_call (fun s : String => s)
      (mock_function (fun s : String => s) [] "0xa" "bc" [] "7")
      "0xab" "c" [] = some "7" := by
  refine ⟨by decide, by decide, by decide⟩

/-- C5: resolution is deterministic over the fingerprint: after registering a
triple its resolution returns the registered value; registering a second triple
with the same fingerprint overwrites (last write wins); resolving a fingerprint
never registered aborts (panic, modelled as `none`), never a default. -/
theorem call_stub_resolution_spec {Tok : Type} (tokToStr : Tok → String)
    (fns : List (String × Tok)) (addr fname : String) (args : List Tok) (v : Tok) :
    ethereum_call tokToStr (mock_function tokToStr fns addr fname args v)
      addr fname args = some v ∧
    (∀ (addr' fname' : String) (args' : List Tok) (v' : Tok),
      create_unique_fn_string tokToStr addr' fname' args' =
        create_unique_fn_string tokToStr addr fname args →
      ethereum_call tokToStr
        (mock_function tokToStr (mock_function tokToStr fns addr' fname' args' v')
          addr fname args v)
        addr' fname' args' = some v) ∧
    (imContains fns (create_unique_fn_string tokToStr addr fname args) = false →
      ethereum_call tokToStr fns addr fname args = none) := by
  refine ⟨?_, ?_, ?_⟩
  · simp [ethereum_call, mock_function, imContains_imInsert_self, imGet?_imInsert_self]
  · intro addr' fname' args' v' hfp
    simp [ethereum_call, mock_function, hfp, imContains_imInsert_self, imGet?_imInsert_self]
  · intro h
    simp [ethereum_call, h]

theorem call_stub_resolution_spec_witness :
    ethereum_call (fun s : String => s)
      (mock_function (fun s : String => s) [] "0xbeef" "balanceOf" ["x"] "7")
      "0xbeef" "balanceOf" ["x"] = some "7" ∧
    ethereum_call (fun s : String => s)
      (mock_function (fun s : String => s)
        (mock_function (fun s : String => s) [] "0xbeef" "balanceOf" ["x"] "9")
        "0xbeef" "balanceOf" ["x"] "7")
      "0xbeef" "balanceOf" ["x"] = some "7" ∧
    ethereum_call (fun s : String => s) [] "0xbeef" "balanceOf" ["x"] = none :=
  ⟨(call_stub_resolution_spec _ [] "0xbeef" "balanceOf" ["x"] "7").1,
   (call_stub_resolution_spec _ [] "0xbeef" "balanceOf" ["x"] "7").2.1
     "0xbeef" "balanceOf" ["x"] "9" rfl,
   (call_stub_resolution_spec _ [] "0xbeef" "balanceOf" ["x"] "7").2.2 (by decide)⟩

/-- C8 counterexample: with a 10-second budget the first poll sleeps the entire
10-second remaining budget rather than the smaller one-second interval, and at
9.5 seconds elapsed the watchdog signals the interrupt although the budget has
not yet expired — refuting both the claimed polling interval and the claimed
signal on expiry of the configured duration. -/
theorem watchdog_early_signal_cex :
    watchdog_step 10000 0 = .sleep 10000 ∧
    minimum_wait_millis < 10000 ∧
    watchdog_step 10000 9500 = .interrupt ∧ 9500 < 10000 := by decide

/-- C8 amended: each poll compares elapsed time against the configured budget;
the watchdog signals the interrupt exactly when less than the one-second
minimum wait remains (so possibly up to one second before expiry), otherwise it
sleeps for the entire remaining budget (at least one second), and over any run
it signals at most once. -/
theorem watchdog_step_spec :
    (∀ (T : Nat) (obs : List Nat), watchdog_interrupt_count T obs ≤ 1) ∧
    (∀ T e : Nat, watchdog_step T e = .interrupt ↔ T < e + minimum_wait_millis) ∧
    (∀ T e d : Nat, watchdog_step T e = .sleep d →
      d = T - e ∧ minimum_wait_millis ≤ d) := by
  refine ⟨?_, ?_, ?_⟩
  · intro T obs
    induction obs with
    | nil => simp [watchdog_interrupt_count]
    | cons e rest ih =>
      simp only [watchdog_interrupt_count]
      cases watchdog_step T e <;> simp [ih]
  · intro T e
    unfold watchdog_step checked_sub minimum_wait_millis
    by_cases h : e ≤ T
    · by_cases h2 : T - e < 1000 <;> simp [h, h2] <;> omega
    · simp [h]; omega
  · intro T e d h
    unfold watchdog_step checked_sub minimum_wait_millis at h
    unfold minimum_wait_millis
    by_cases he : e ≤ T
    · simp only [he, if_true] at h
      by_cases h2 : T - e < 1000
      · simp [h2] at h
      · simp [h2] at h; omega
    · simp [he] at h

theorem watchdog_step_spec_witness :
    watchdog_interrupt_count 10000 [0, 9500] ≤ 1 ∧
    (watchdog_step 2000 1500 = .interrupt ↔ 2000 < 1500 + minimum_wait_millis) ∧
    (4000 = 5000 - 1000 ∧ minimum_wait_millis ≤ 4000) :=
  ⟨watchdog_step_spec.1 10000 [0, 9500],
   watchdog_step_spec.2.1 2000 1500,
   watchdog_step_spec.2.2 5000 1000 4000 (by decide)⟩

/-- A looked-up key is contained. -/
theorem imContains_of_imGet? {V : Type} {m : List (String × V)} {k : String} {v : V}
    (h : imGet? m k = some v) : imContains m k = true := by
  induction m with
  | nil => simp [imGet?] at h
  | cons p m ih =>
    by_cases hp : p.1 = k
    · simp [imContains, hp]
    · simp only [imGet?, if_neg hp] at h
      simp [imContains, hp, ih h]

/-- Fixed character of the missing-type message. -/
theorem msgNoType_data29 (t : String) : (msgNoType t).data[29]? = some 'i' := by
  simp only [msgNoType, String.data_append, List.append_assoc]
  rw [List.getElem?_append_left (by decide)]
  decide

/-- Fixed character of the missing-type message. -/
theorem msgNoType_data24 (t : String) : (msgNoType t).data[24]? = some 'e' := by
  simp only [msgNoType, String.data_append, List.append_assoc]
  rw [List.getElem?_append_left (by decide)]
  decide

/-- Fixed character of the missing-type message. -/
theorem msgNoType_data21 (t : String) : (msgNoType t).data[21]? = some 'N' := by
  simp only [msgNoType, String.data_append, List.append_assoc]
  rw [List.getElem?_append_left (by decide)]
  decide

/-- Fixed character of the missing-id message. -/
theorem msgNoId_data29 (t i : String) : (msgNoId t i).data[29]? = some 'y' := by
  simp only [msgNoId, String.data_append, List.append_assoc]
  rw [List.getElem?_append_left (by decide)]
  decide

/-- Fixed character of the missing-id message. -/
theorem msgNoId_data24 (t i : String) : (msgNoId t i).data[24]? = some 'e' := by
  simp only [msgNoId, String.data_append, List.append_assoc]
  rw [List.getElem?_append_left (by decide)]
  decide

/-- Fixed character of the missing-id message. -/
theorem msgNoId_data21 (t i : String) : (msgNoId t i).data[21]? = some 'N' := by
  simp only [msgNoId, String.data_append, List.append_assoc]
  rw [List.getElem?_append_left (by decide)]
  decide

/-- Fixed character of the missing-field message. -/
theorem msgNoField_data24 (f t i : String) : (msgNoField f t i).data[24]? = some 'f' := by
  simp only [msgNoField, String.data_append, List.append_assoc]
  rw [List.getElem?_append_left (by decide)]
  decide

/-- Fixed character of the missing-field message. -/
theorem msgNoField_data21 (f t i : String) : (msgNoField f t i).data[21]? = some 'N' := by
  simp only [msgNoField, String.data_append, List.append_assoc]
  rw [List.getElem?_append_left (by decide)]
  decide

/-- Fixed character of the mismatch message. -/
theorem msgMismatch_data21 (f e a : String) : (msgMismatch f e a).data[21]? = some 'E' := by
  simp only [msgMismatch, String.data_append, List.append_assoc]
  rw [List.getElem?_append_left (by decide)]
  decide

/-- Strings differing at one position differ. -/
theorem string_ne_of_data_getElem? {a b : String} {n : Nat}
    (h : a.data[n]? ≠ b.data[n]?) : a ≠ b := by
  intro hab
  exact h (by rw [hab])

/-- The four assertion failure messages are pairwise textually distinct, for
all parameter values. -/
theorem assert_msgs_pairwise_distinct (t i f e a t' i' f' : String) :
    msgNoType t ≠ msgNoId t' i' ∧
    msgNoType t ≠ msgNoField f' t' i' ∧
    msgNoType t ≠ msgMismatch f' e a ∧
    msgNoId t i ≠ msgNoField f' t' i' ∧
    msgNoId t i ≠ msgMismatch f' e a ∧
    msgNoField f t i ≠ msgMismatch f' e a := by
  refine ⟨?_, ?_, ?_, ?_, ?_, ?_⟩
  · exact string_ne_of_data_getElem?
      (by rw [msgNoType_data29, msgNoId_data29]; decide)
  · exact string_ne_of_data_getElem?
      (by rw [msgNoType_data24, msgNoField_data24]; decide)
  · exact string_ne_of_data_getElem?
      (by rw [msgNoType_data21, msgMismatch_data21]; decide)
  · exact string_ne_of_data_getElem?
      (by rw [msgNoId_data24, msgNoField_data24]; decide)
  · exact string_ne_of_data_getElem?
      (by rw [msgNoId_data21, msgMismatch_data21]; decide)
  · exact string_ne_of_data_getElem?
      (by rw [msgNoField_data21, msgMismatch_data21]; decide)

/-- C4: `assert_field_equals` checks, in order, that the entity type exists,
then the id, then the field, then that the canonical string form of the value
equals the expectation; each of the four failure cases records a test failure
(through `fail_test`) with a message of its own — the four messages being
pairwise textually distinct for all parameter values — and the mismatch message
names both the expected and the actual value. A passing assertion leaves the
ledger unchanged. -/
theorem assert_field_equals_check_order {V : Type} (toStr : V → String)
    (store : StoreV V) (ld : Ledger) (t i f e : String) :
    (imContains store t = false →
      assert_field_equals toStr store ld t i f e = fail_test (msgNoType t) ld) ∧
    (∀ entities, imGet? store t = some entities → imContains entities i = false →
      assert_field_equals toStr store ld t i f e = fail_test (msgNoId t i) ld) ∧
    (∀ entities entity, imGet? store t = some entities →
      imGet? entities i = some entity → imContains entity f = false →
      assert_field_equals toStr store ld t i f e = fail_test (msgNoField f t i) ld) ∧
    (∀ entities entity v, imGet? store t = some entities →
      imGet? entities i = some entity → imGet? entity f = some v → toStr v ≠ e →
      assert_field_equals toStr store ld t i f e =
        fail_test (msgMismatch f e (toStr v)) ld) ∧
    (∀ entities entity v, imGet? store t = some entities →
      imGet? entities i = some entity → imGet? entity f = some v → toStr v = e →
      assert_field_equals toStr store ld t i f e = some ld) ∧
    (∀ act, (∃ p q, msgMismatch f e act = p ++ e ++ q) ∧
      (∃ p q, msgMismatch f e act = p ++ act ++ q)) ∧
    (∀ t' i' f' act,
      msgNoType t ≠ msgNoId t' i' ∧
      msgNoType t ≠ msgNoField f' t' i' ∧
      msgNoType t ≠ msgMismatch f' e act ∧
      msgNoId t i ≠ msgNoField f' t' i' ∧
      msgNoId t i ≠ msgMismatch f' e act ∧
      msgNoField f t i ≠ msgMismatch f' e act) := by
  refine ⟨?_, ?_, ?_, ?_, ?_, ?_, ?_⟩
  · intro h
    simp [assert_field_equals, h]
  · intro entities hget hid
    have hc := imContains_of_imGet? hget
    simp [assert_field_equals, hc, hget, hid]
  · intro entities entity hget hgete hf
    have hc := imContains_of_imGet? hget
    have hci := imContains_of_imGet? hgete
    simp [assert_field_equals, hc, hget, hci, hgete, hf]
  · intro entities entity v hget hgete hgetf hne
    have hc := imContains_of_imGet? hget
    have hci := imContains_of_imGet? hgete
    have hcf := imContains_of_imGet? hgetf
    simp [assert_field_equals, hc, hget, hci, hgete, hcf, hgetf, hne]
  · intro entities entity v hget hgete hgetf heq
    have hc := imContains_of_imGet? hget
    have hci := imContains_of_imGet? hgete
    have hcf := imContains_of_imGet? hgetf
    simp [assert_field_equals, hc, hget, hci, hgete, hcf, hgetf, heq]
  · intro act
    constructor
    · exact ⟨"(assert.fieldEquals) Expected field '" ++ f ++ "' to equal '",
        "', but was '" ++ act ++ "' instead.",
        by simp [msgMismatch, String.append_assoc]⟩
    · exact ⟨"(assert.fieldEquals) Expected field '" ++ f ++ "' to equal '" ++ e ++
          "', but was '",
        "' instead.",
        by simp [msgMismatch, String.append_assoc]⟩
  · intro t' i' f' act
    exact assert_msgs_pairwise_distinct t i f e act t' i' f'

theorem assert_field_equals_check_order_witness :
    assert_field_equals (fun s : String => s)
      [("Token", [("1", [("symbol", "AAA")])])]
      { testResults := [("t1", true)], logs := [] } "Token" "1" "symbol" "BBB" =
      fail_test (msgMismatch "symbol" "BBB" "AAA")
        { testResults := [("t1", true)], logs := [] } ∧
    msgNoType "Token" ≠ msgNoId "Token" "1" := by
  constructor
  · exact (assert_field_equals_check_order (fun s : String => s)
      [("Token", [("1", [("symbol", "AAA")])])]
      { testResults := [("t1", true)], logs := [] } "Token" "1" "symbol" "BBB").2.2.2.1
      [("1", [("symbol", "AAA")])] [("symbol", "AAA")] "AAA"
      (by decide) (by decide) (by decide) (by decide)
  · exact ((assert_field_equals_check_order (fun s : String => s)
      [("Token", [("1", [("symbol", "AAA")])])]
      { testResults := [("t1", true)], logs := [] } "Token" "1" "symbol" "BBB").2.2.2.2.2.2
      "Token" "1" "f" "AAA").1

/-- C1 counterexample: a deterministically trapping invocation (memory out of
bounds) yields the rolled-back outcome carrying the structured error record,
yet a mock-store mutation performed during the invocation through
`mock_store_set` survives: the global store after the invocation differs from
the store immediately before it began. -/
theorem deterministic_trap_keeps_mock_store_cex :
    invoke_handler "handleTransfer" true
      { state := { entityOps := [], snapshot := none, deterministicErrors := [] },
        timeout := some 30, subgraph_id := "sg", block_ptr := "block0" }
      ([] : StoreV String)
      { storeAfter := mock_store_set ([] : StoreV String) "Token" "1" [("symbol", "AAA")],
        newOps := [], possible_reorg := false, deterministic_host_trap := false,
        result := some { msg := "wasm trap: out of bounds memory access",
                         code := some .MemoryOutOfBounds } } =
      some (.ok { entityOps := [], snapshot := none,
                  deterministicErrors :=
                    [{ subgraph_id := "sg",
                       message := "wasm trap: out of bounds memory access",
                       block_ptr := some "block0", handler := some "handleTransfer",
                       deterministic := true }] },
            [("Token", [("1", [("symbol", "AAA")])])]) ∧
    ([("Token", [("1", [("symbol", "AAA")])])] : StoreV String) ≠ ([] : StoreV String) := by
  constructor
  · decide
  · decide

/-- C1 amended: on a failure classified Deterministic, `invoke_handler` returns
the rolled-back outcome: an `Ok` block state whose in-flight engine-state
changes are discarded back to the handler-entry snapshot and which records the
structured error (subgraph id, tab-normalized message, block pointer, handler
name, deterministic=true) instead of crashing; but the global mock store is not
restored — it is returned exactly as the invocation's host calls left it, not
as it was immediately before the invocation began. -/
theorem deterministic_trap_rolls_back_state_not_store {V : Type} (handler : String)
    (ctx : InstanceCtx) (store0 : StoreV V) (call : WasmCall V) (trap : TrapInfo)
    (hres : call.result = some trap)
    (hpr : call.possible_reorg = false)
    (htm : strContainsSub trap.msg TRAP_TIMEOUT = false)
    (hdet : isDeterministicTrapCode trap.code = true ∨
      call.deterministic_host_trap = true) :
    invoke_handler handler true ctx store0 call =
      some (.ok { entityOps := ctx.state.entityOps
                  snapshot := none
                  deterministicErrors := ctx.state.deterministicErrors ++
                    [mkSubgraphError ctx handler trap] },
            call.storeAfter) := by
  by_cases h2 : isDeterministicTrapCode trap.code = true
  · simp [invoke_handler, hres, hpr, htm, h2, enter_handler, applyOps,
      exit_handler_and_discard_changes_due_to_error]
  · rcases hdet with h | h
    · exact absurd h h2
    · simp [invoke_handler, hres, hpr, htm, h2, h, enter_handler, applyOps,
        exit_handler_and_discard_changes_due_to_error]

theorem deterministic_trap_rolls_back_state_not_store_witness :
    invoke_handler "handleMint" true
      { state := { entityOps := ["op0"], snapshot := none, deterministicErrors := [] },
        timeout := none, subgraph_id := "sg2", block_ptr := "block7" }
      ([] : StoreV String)
      { storeAfter := [("T", [("1", [("f", "v")])])],
        newOps := ["set T 1"], possible_reorg := false, deterministic_host_trap := true,
        result := some { msg := "host trap", code := none } } =
      some (.ok { entityOps := ["op0"], snapshot := none,
                  deterministicErrors :=
                    [{ subgraph_id := "sg2",
                       message := "host trap",
                       block_ptr := some "block7", handler := some "handleMint",
                       deterministic := true }] },
            [("T", [("1", [("f", "v")])])]) :=
  deterministic_trap_rolls_back_state_not_store "handleMint"
    { state := { entityOps := ["op0"], snapshot := none, deterministicErrors := [] },
      timeout := none, subgraph_id := "sg2", block_ptr := "block7" }
    ([] : StoreV String)
    { storeAfter := [("T", [("1", [("f", "v")])])],
      newOps := ["set T 1"], possible_reorg := false, deterministic_host_trap := true,
      result := some { msg := "host trap", code := none } }
    { msg := "host trap", code := none }
    rfl rfl (by decide) (Or.inr rfl)

/-- C2: for every failed handler invocation the classifier is evaluated in
exactly this priority order: (1) the possible-reorg flag of the execution
context yields PossibleReorg; (2) else a failure message containing the
timeout marker yields the timeout error naming the configured duration;
(3) else one of the nine deterministic trap codes is Deterministic (the
rolled-back outcome); (4) else the sticky deterministic-host-trap flag is
Deterministic; (5) otherwise the failure propagates as an unrecoverable
Unknown engine error. -/
theorem trap_classifier_priority {V : Type} (handler : String) (ctx : InstanceCtx)
    (store0 : StoreV V) (call : WasmCall V) (trap : TrapInfo)
    (hres : call.result = some trap) :
    (call.possible_reorg = true →
      invoke_handler handler true ctx store0 call =
        some (.err (.PossibleReorg trap.msg), call.storeAfter)) ∧
    (call.possible_reorg = false → strContainsSub trap.msg TRAP_TIMEOUT = true →
      ∀ t, ctx.timeout = some t →
      invoke_handler handler true ctx store0 call =
        some (.err (.Unknown (timeoutMsg handler t)), call.storeAfter)) ∧
    (call.possible_reorg = false → strContainsSub trap.msg TRAP_TIMEOUT = false →
      isDeterministicTrapCode trap.code = true →
      invoke_handler handler true ctx store0 call =
        some (.ok (exit_handler_and_discard_changes_due_to_error
          (applyOps (enter_handler ctx.state) call.newOps)
          (mkSubgraphError ctx handler trap)), call.storeAfter)) ∧
    (call.possible_reorg = false → strContainsSub trap.msg TRAP_TIMEOUT = false →
      isDeterministicTrapCode trap.code = false → call.deterministic_host_trap = true →
      invoke_handler handler true ctx store0 call =
        some (.ok (exit_handler_and_discard_changes_due_to_error
          (applyOps (enter_handler ctx.state) call.newOps)
          (mkSubgraphError ctx handler trap)), call.storeAfter)) ∧
    (call.possible_reorg = false → strContainsSub trap.msg TRAP_TIMEOUT = false →
      isDeterministicTrapCode trap.code = false → call.deterministic_host_trap = false →
      invoke_handler handler true ctx store0 call =
        some (.err (.Unknown trap.msg), call.storeAfter)) := by
  refine ⟨?_, ?_, ?_, ?_, ?_⟩
  · intro h1
    simp [invoke_handler, hres, h1]
  · intro h1 h2 t ht
    simp [invoke_handler, hres, h1, h2, ht]
  · intro h1 h2 h3
    simp [invoke_handler, hres, h1, h2, h3]
  · intro h1 h2 h3 h4
    simp [invoke_handler, hres, h1, h2, h3, h4]
  · intro h1 h2 h3 h4
    simp [invoke_handler, hres, h1, h2, h3, h4]

theorem trap_classifier_priority_witness :
    invoke_handler "handleSwap" true
      { state := { entityOps := [], snapshot := none, deterministicErrors := [] },
        timeout := some 30, subgraph_id := "sg", block_ptr := "b" }
      ([] : StoreV String)
      { storeAfter := [], newOps := [], possible_reorg := false,
        deterministic_host_trap := false,
        result := some { msg := "wasm trap: interrupt", code := some .Interrupt } } =
      some (.err (.Unknown (timeoutMsg "handleSwap" 30)), ([] : StoreV String)) :=
  (trap_classifier_priority "handleSwap" _ _ _ _ rfl).2.1 rfl (by decide) 30 rfl

/-- C3 counterexample: a chain-specific export invoked before the shared
execution context is materialized does not lazily construct the context — it
fails with an error naming the function and leaves the context unmaterialized —
whereas the built-in wrapper invoked in the same situation does materialize the
context from the pending mapping context; so the chain-specific wrapping is not
identical to the built-in wrapping with respect to context materialization. -/
theorem chain_host_fn_no_lazy_ctx_cex :
    host_fn_wrapper "ethereum.call" none (.ok (0 : Nat)) =
      (none, .error "ethereum.call is not allowed in global variables", []) ∧
    link_host_call
      (fun _ : Unit => { deterministic_host_trap := false, possible_reorg := false })
      none (some ()) (.ok (0 : Nat)) =
      some ({ deterministic_host_trap := false, possible_reorg := false }, .ok 0) := by
  exact ⟨rfl, rfl⟩

/-- C3 amended: with a materialized context, every chain-specific export
records per-function execution timing under the mangled function name on
success and translates the adapter error taxonomy into the same sticky flags
the built-in wrapper uses (Deterministic sets deterministic_host_trap,
PossibleReorg sets possible_reorg, Unknown sets neither); but when the shared
execution context has not yet been materialized the chain-specific wrapper
does not lazily construct it — the call fails with an error naming the
function. -/
theorem chain_host_fn_wrapper_spec {α : Type} (fnName : String) (inst : CtxFlags)
    (a : α) (m : String) :
    host_fn_wrapper fnName (some inst) (.ok a) =
      (some inst, .ok a, [metricsName fnName]) ∧
    host_fn_wrapper (α := α) fnName (some inst) (.error (.deterministic m)) =
      (some { inst with deterministic_host_trap := true }, .error m, []) ∧
    host_fn_wrapper (α := α) fnName (some inst) (.error (.possibleReorg m)) =
      (some { inst with possible_reorg := true }, .error m, []) ∧
    host_fn_wrapper (α := α) fnName (some inst) (.error (.unknown m)) =
      (some inst, .error m, []) ∧
    applyDeterminismLevel inst .Deterministic =
      { inst with deterministic_host_trap := true } ∧
    applyDeterminismLevel inst .PossibleReorg =
      { inst with possible_reorg := true } ∧
    host_fn_wrapper (α := α) fnName none (.ok a) =
      (none, .error (fnName ++ " is not allowed in global variables"), []) :=
  ⟨rfl, rfl, rfl, rfl, rfl, rfl, rfl⟩

end Matchstick
